import Mathlib

/-!
Verification development for the OBS stream watchdog (obs-watchdog-websocket.py).

The Python source is shallowly embedded: pure computations become Lean
functions, the WebSocket callback state (the globals connected,
streaming_status, message_id, ws) becomes an explicit state record threaded
through step functions, and the asynchronous environment (attempt outcomes,
send success, frames arriving) is an explicit oracle argument. Machine
integers are modelled as Nat with explicit reduction mod 2 ^ 32 where the
hash algorithm wraps.
-/

/-! ## Byte-level primitives: UTF-8, SHA-256, Base64

These model Python's str.encode(), hashlib.sha256().digest() and
base64.b64encode(). Bytes are Nat values below 256, words are Nat values
below 2 ^ 32.
-/

/-- UTF-8 encoding of a single Unicode code point, as the standard 1 to 4
byte sequence. -/
def utf8Char (n : Nat) : List Nat :=
  if n < 128 then [n]
  else if n < 2048 then [192 + n / 64, 128 + n % 64]
  else if n < 65536 then [224 + n / 4096, 128 + n / 64 % 64, 128 + n % 64]
  else [240 + n / 262144, 128 + n / 4096 % 64, 128 + n / 64 % 64, 128 + n % 64]

/-- UTF-8 encoding of a string (Python str.encode()). -/
def utf8Encode (s : String) : List Nat :=
  s.data.flatMap (fun c => utf8Char c.toNat)

/-- Truncation to a 32-bit word. -/
def w32 (x : Nat) : Nat := x % 4294967296

/-- Right rotation of a 32-bit word by n bits. -/
def rotr (n x : Nat) : Nat := w32 (x / 2 ^ n + x % 2 ^ n * 2 ^ (32 - n))

/-- Bitwise complement of a 32-bit word. -/
def not32 (x : Nat) : Nat := 4294967295 - x

/-- SHA-256 choice function. -/
def shaCh (x y z : Nat) : Nat := (x &&& y) ^^^ (not32 x &&& z)

/-- SHA-256 majority function. -/
def shaMaj (x y z : Nat) : Nat := (x &&& y) ^^^ (x &&& z) ^^^ (y &&& z)

/-- SHA-256 big sigma 0. -/
def bigSigma0 (x : Nat) : Nat := rotr 2 x ^^^ rotr 13 x ^^^ rotr 22 x

/-- SHA-256 big sigma 1. -/
def bigSigma1 (x : Nat) : Nat := rotr 6 x ^^^ rotr 11 x ^^^ rotr 25 x

/-- SHA-256 small sigma 0. -/
def smallSigma0 (x : Nat) : Nat := rotr 7 x ^^^ rotr 18 x ^^^ x / 8

/-- SHA-256 small sigma 1. -/
def smallSigma1 (x : Nat) : Nat := rotr 17 x ^^^ rotr 19 x ^^^ x / 1024

/-- The 64 SHA-256 round constants, written in decimal to match the Nat
word model. -/
def K256 : List Nat :=
  [1116352408, 1899447441, 3049323471, 3921009573, 961987163,
   1508970993, 2453635748, 2870763221, 3624381080, 310598401,
   607225278, 1426881987, 1925078388, 2162078206, 2614888103,
   3248222580, 3835390401, 4022224774, 264347078, 604807628,
   770255983, 1249150122, 1555081692, 1996064986, 2554220882,
   2821834349, 2952996808, 3210313671, 3336571891, 3584528711,
   113926993, 338241895, 666307205, 773529912, 1294757372,
   1396182291, 1695183700, 1986661051, 2177026350, 2456956037,
   2730485921, 2820302411, 3259730800, 3345764771, 3516065817,
   3600352804, 4094571909, 275423344, 430227734, 506948616,
   659060556, 883997877, 958139571, 1322822218, 1537002063,
   1747873779, 1955562222, 2024104815, 2227730452, 2361852424,
   2428436474, 2756734187, 3204031479, 3329325298]

/-- Big-endian 8-byte encoding of a Nat (the padded bit-length field). -/
def be64 (n : Nat) : List Nat :=
  [n / 2 ^ 56 % 256, n / 2 ^ 48 % 256, n / 2 ^ 40 % 256, n / 2 ^ 32 % 256,
   n / 2 ^ 24 % 256, n / 2 ^ 16 % 256, n / 2 ^ 8 % 256, n % 256]

/-- Big-endian 4-byte encoding of a 32-bit word. -/
def be32 (n : Nat) : List Nat :=
  [n / 2 ^ 24 % 256, n / 2 ^ 16 % 256, n / 2 ^ 8 % 256, n % 256]

/-- SHA-256 message padding: append 0x80, zeros to 56 mod 64, then the
64-bit big-endian bit length. -/
def shaPad (msg : List Nat) : List Nat :=
  msg ++ [128] ++ List.replicate ((119 - msg.length % 64) % 64) 0
      ++ be64 (8 * msg.length)

/-- Split a byte list into 64-byte chunks; the fuel argument bounds the
recursion and is supplied as the length of the list. -/
def chunks64 : Nat → List Nat → List (List Nat)
  | 0, _ => []
  | _, [] => []
  | fuel + 1, l => l.take 64 :: chunks64 fuel (l.drop 64)

/-- Combine groups of four bytes, big-endian, into 32-bit words. -/
def toWords : List Nat → List Nat
  | a :: b :: c :: d :: rest => (((a * 256 + b) * 256 + c) * 256 + d) :: toWords rest
  | _ => []

/-- One step of the SHA-256 message-schedule extension: push word number
a.size computed from the four earlier schedule words. -/
def schedStep (a : Array Nat) : Array Nat :=
  let i := a.size
  a.push (w32 (smallSigma1 (a.getD (i - 2) 0) + a.getD (i - 7) 0 +
    smallSigma0 (a.getD (i - 15) 0) + a.getD (i - 16) 0))

/-- Extend the 16 block words to the 64-entry message schedule. -/
def schedule (ws : List Nat) : Array Nat :=
  (List.range 48).foldl (fun a _ => schedStep a) ws.toArray

/-- The eight 32-bit working variables of the SHA-256 compression loop. -/
structure H8 where
  a : Nat
  b : Nat
  c : Nat
  d : Nat
  e : Nat
  f : Nat
  g : Nat
  h : Nat

/-- SHA-256 initial hash value, in decimal. -/
def sha256Init : H8 :=
  ⟨1779033703, 3144134277, 1013904242, 2773480762,
   1359893119, 2600822924, 528734635, 1541459225⟩

/-- One SHA-256 compression round with round constant k and schedule word w. -/
def compressRound (st : H8) (k w : Nat) : H8 :=
  let t1 := w32 (st.h + bigSigma1 st.e + shaCh st.e st.f st.g + k + w)
  let t2 := w32 (bigSigma0 st.a + shaMaj st.a st.b st.c)
  ⟨w32 (t1 + t2), st.a, st.b, st.c, w32 (st.d + t1), st.e, st.f, st.g⟩

/-- Process one padded 64-byte block, updating the running hash value. -/
def processBlock (hv : H8) (block : List Nat) : H8 :=
  let ws := schedule (toWords block)
  let st := (K256.zip ws.toList).foldl (fun s kw => compressRound s kw.1 kw.2) hv
  ⟨w32 (hv.a + st.a), w32 (hv.b + st.b), w32 (hv.c + st.c), w32 (hv.d + st.d),
   w32 (hv.e + st.e), w32 (hv.f + st.f), w32 (hv.g + st.g), w32 (hv.h + st.h)⟩

/-- SHA-256 digest of a byte list, as the 32-byte big-endian digest
(Python hashlib.sha256(bytes).digest()). -/
def sha256 (msg : List Nat) : List Nat :=
  let padded := shaPad msg
  let hv := (chunks64 padded.length padded).foldl processBlock sha256Init
  be32 hv.a ++ be32 hv.b ++ be32 hv.c ++ be32 hv.d ++
    be32 hv.e ++ be32 hv.f ++ be32 hv.g ++ be32 hv.h

/-- The Base64 alphabet. -/
def b64Alphabet : List Char :=
  "ABCDEFGHIJKLMNOPQRSTUVWXYZabcdefghijklmnopqrstuvwxyz0123456789+/".data

/-- Character at a 6-bit index of the Base64 alphabet. -/
def b64Char (n : Nat) : Char := b64Alphabet.getD n 'A'

/-- Standard Base64 encoding of a byte list, in 3-byte groups with
trailing padding (Python base64.b64encode(bytes).decode()). -/
def b64Chars : List Nat → List Char
  | a :: b :: c :: rest =>
    let n := (a * 256 + b) * 256 + c
    b64Char (n / 2 ^ 18) :: b64Char (n / 2 ^ 12 % 64) ::
      b64Char (n / 2 ^ 6 % 64) :: b64Char (n % 64) :: b64Chars rest
  | [a, b] =>
    let n := (a * 256 + b) * 256
    [b64Char (n / 2 ^ 18), b64Char (n / 2 ^ 12 % 64), b64Char (n / 2 ^ 6 % 64), '=']
  | [a] =>
    let n := a * 256 * 256
    [b64Char (n / 2 ^ 18), b64Char (n / 2 ^ 12 % 64), '=', '=']
  | [] => []

/-- Base64 encoding as a string. -/
def b64Encode (bytes : List Nat) : String := String.mk (b64Chars bytes)

/-! ## Protocol messages and client state

Embedding of the script's globals (connected, streaming_status, message_id,
ws) and of the JSON frames it reads and writes. Incoming frames are
modelled by the op code plus the optional fields the handler reads; a
missing field that the handler dereferences raises KeyError in Python,
which the surrounding try/except absorbs, leaving state unchanged. -/

/-- Authentication section of a hello frame: d.authentication. -/
structure AuthData where
  salt : String
  challenge : String
deriving DecidableEq, Repr

/-- Incoming frame, restricted to the fields on_message reads. -/
structure InFrame where
  op : Nat
  authentication : Option AuthData
  requestType : Option String
  responseOutputActive : Option Bool
  eventType : Option String
  eventOutputActive : Option Bool
deriving DecidableEq, Repr

/-- Outgoing frame built by the client. -/
inductive OutMsg where
  | identify (rpcVersion : Nat) (authentication : Option String)
  | request (requestType : String) (requestId : String)
deriving DecidableEq, Repr

/-- The script's mutable globals: connected, streaming_status, message_id,
and whether the ws object exists (ws is not None). -/
structure CState where
  connected : Bool
  streaming_status : Bool
  message_id : Nat
  wsExists : Bool
deriving DecidableEq, Repr

/-- Initial values of the globals: ws = None, streaming_status = False,
message_id = 1, connected = False. -/
def initState : CState :=
  { connected := false, streaming_status := false, message_id := 1, wsExists := false }

/-! ## AuthCodec: the challenge-response derivation

Lines 236 to 257 of the source: step1 = password + salt, secret =
base64(sha256(step1)), step3 = secret + challenge, auth_response =
base64(sha256(step3)), with the strings UTF-8 encoded before hashing. -/

/-- The credential computed by on_message's hello handler, translated
step for step from the source. -/
def authResponseOf (password salt challenge : String) : String :=
  let step1 := password ++ salt
  let secret := b64Encode (sha256 (utf8Encode step1))
  let step3 := secret ++ challenge
  b64Encode (sha256 (utf8Encode step3))

/-- The derivation as the spec words it: two hash-then-base64 stages over
the concatenation of the separately UTF-8-encoded pieces. -/
def specAuthResponse (password salt challenge : String) : String :=
  b64Encode (sha256
    (utf8Encode (b64Encode (sha256 (utf8Encode password ++ utf8Encode salt)))
      ++ utf8Encode challenge))

/-! ## on_message

The handler returns the new global state, the list of frames sent on the
socket during the call, and whether it called ws.close(). The op = 2 case
also calls get_streaming_status, so the send functions come first. -/

/-- Embedding of get_streaming_status: refuse when not connected or ws is
None; otherwise build the GetStreamStatus request with the current
message_id, increment message_id, and send. The sendOk flag models whether
ws.send raises; the id is consumed either way because the increment
precedes the send, and the caught exception yields False. Returns the new
state, the frame actually sent, and the Boolean result. -/
def get_streaming_status (st : CState) (sendOk : Bool) : CState × Option OutMsg × Bool :=
  if !st.connected || !st.wsExists then (st, none, false)
  else
    let frame := OutMsg.request "GetStreamStatus" (toString st.message_id)
    let st' := { st with message_id := st.message_id + 1 }
    if sendOk then (st', some frame, true) else (st', none, false)

/-- Embedding of start_streaming: when not connected or ws is None it falls
back to the keyboard shortcut; otherwise it builds the StartStream request
with the current message_id, increments message_id, and sends, falling back
to the keyboard shortcut when the send raises. Returns the new state, the
frame actually sent, whether start_streaming_keyboard was invoked, and the
Boolean result. -/
def start_streaming (st : CState) (sendOk : Bool) :
    CState × Option OutMsg × Bool × Bool :=
  if !st.connected || !st.wsExists then (st, none, true, false)
  else
    let frame := OutMsg.request "StartStream" (toString st.message_id)
    let st' := { st with message_id := st.message_id + 1 }
    if sendOk then (st', some frame, false, true) else (st', none, true, false)

/-- Embedding of on_message: dispatch on the frame's op code. Returns the
new global state, the frames sent during the call, and whether the handler
called ws.close(). sendOk models ws.send success for the status request
issued from the op = 2 branch. -/
def on_message (password : String) (sendOk : Bool) (st : CState) (f : InFrame) :
    CState × List OutMsg × Bool :=
  if f.op = 0 then
    match f.authentication with
    | some auth =>
      if password ≠ "" then
        (st, [OutMsg.identify 1 (some (authResponseOf password auth.salt auth.challenge))], false)
      else
        (st, [], true)
    | none => (st, [OutMsg.identify 1 none], false)
  else if f.op = 2 then
    let st1 := { st with connected := true }
    let (st2, sent, _) := get_streaming_status st1 sendOk
    (st2, sent.toList, false)
  else if f.op = 7 then
    match f.requestType with
    | some rt =>
      if rt = "GetStreamStatus" then
        match f.responseOutputActive with
        | some b => ({ st with streaming_status := b }, [], false)
        | none => (st, [], false)
      else (st, [], false)
    | none => (st, [], false)
  else if f.op = 5 then
    match f.eventType with
    | some et =>
      if et = "StreamStateChanged" then
        match f.eventOutputActive with
        | some b => ({ st with streaming_status := b }, [], false)
        | none => (st, [], false)
      else (st, [], false)
    | none => (st, [], false)
  else (st, [], false)

/-- Embedding of on_close: the connected flag is cleared. -/
def on_close (st : CState) : CState := { st with connected := false }

/-! ## connect_websocket: the retry logic

Lines 162 to 192 of the source: wait for the connection; on success reset
connection_retries and return True; on failure increment
connection_retries, and while it is still below MAX_RETRIES sleep
RETRY_DELAY and call connect_websocket again (the source comment reads
Recursive retry); at the limit reset the counter and return False. The
outcome oracle says whether attempt number k reaches the connected state
within the timeout. The result records the trace of attempts and sleeps in
order, and depth counts the nested connect_websocket activations, i.e. the
stack frames consumed by the retry. -/

/-- One item of a connection-establishment trace: an attempt with its
index, or a sleep of the given duration. -/
inductive ConnEv where
  | attempt (k : Nat)
  | sleep (d : Nat)
deriving DecidableEq, Repr

/-- Result of a connect_websocket call chain. -/
structure ConnResult where
  success : Bool
  retriesAfter : Nat
  events : List ConnEv
  depth : Nat
deriving DecidableEq, Repr

/-- The body of connect_websocket, translated from the source with the
self-call made explicit; fuel bounds the recursion and is chosen large
enough that it never runs out (connectLoop_depth_le, connectLoop_fuel). -/
def connectLoop (outcome : Nat → Bool) (maxRetries retryDelay : Nat) :
    Nat → Nat → Nat → ConnResult
  | 0, _, retries => ⟨false, retries, [], 0⟩
  | fuel + 1, k, retries =>
    if outcome k then ⟨true, 0, [ConnEv.attempt k], 1⟩
    else if retries + 1 < maxRetries then
      let r := connectLoop outcome maxRetries retryDelay fuel (k + 1) (retries + 1)
      ⟨r.success, r.retriesAfter,
        ConnEv.attempt k :: ConnEv.sleep retryDelay :: r.events, r.depth + 1⟩
    else ⟨false, 0, [ConnEv.attempt k], 1⟩

/-- A top-level connect_websocket call, entered with the global
connection_retries counter at 0. -/
def connect_websocket (outcome : Nat → Bool) (maxRetries retryDelay : Nat) : ConnResult :=
  connectLoop outcome maxRetries retryDelay (maxRetries + 1) 0 0

/-! ## The supervision loop

One iteration of the while-True body of main (lines 420 to 454), with the
environment of the tick (process liveness, connect outcome, send successes,
any frame landing during the one-second grace sleep) passed as an explicit
record. The connect_websocket internals are modelled by their observable
outcome: on success the session is connected and the ws object exists; on
failure the state is unchanged. -/

/-- Environment of a single tick. -/
structure TickEnv where
  obs_running : Bool
  connect_success : Bool
  status_send_ok : Bool
  status_response : Option Bool
  start_send_ok : Bool
deriving DecidableEq, Repr

/-- Observable actions of a single tick. -/
structure TickOut where
  keyboard : Bool
  started_via_ws : Bool
deriving DecidableEq, Repr

/-- One iteration of main's loop body on the non-exceptional path: check
is_obs_running; if not running, clear connected and close ws if a session
exists; otherwise connect when needed, poll status, and start the stream
when the status flag is false, with start_streaming falling back to the
keyboard shortcut as embedded above; when no connection exists after the
attempt, use the keyboard fallback only if USE_FALLBACK_ON_FAILURE. -/
def tick (useFallback : Bool) (env : TickEnv) (st : CState) : CState × TickOut :=
  if !env.obs_running then
    (if st.connected then { st with connected := false } else st,
     { keyboard := false, started_via_ws := false })
  else
    let st1 :=
      if !st.connected then
        if env.connect_success then { st with connected := true, wsExists := true }
        else st
      else st
    if st1.connected then
      let (st2, _, _) := get_streaming_status st1 env.status_send_ok
      let st3 :=
        match env.status_response with
        | some b => { st2 with streaming_status := b }
        | none => st2
      if !st3.streaming_status then
        let (st4, sent, kb, _) := start_streaming st3 env.start_send_ok
        (st4, { keyboard := kb, started_via_ws := sent.isSome })
      else (st3, { keyboard := false, started_via_ws := false })
    else if useFallback then
      (st1, { keyboard := true, started_via_ws := false })
    else
      (st1, { keyboard := false, started_via_ws := false })

/-- Outcome of one tick body as seen by main's exception handling:
normal completion, an exception caught by the except-Exception arm, or
KeyboardInterrupt. -/
inductive TickResult where
  | ok
  | err
  | interrupt
deriving DecidableEq, Repr

/-- Tally of a main-loop run: iterations entered, sleeps of CHECK_INTERVAL
performed, and whether the loop exited through the KeyboardInterrupt
break. -/
structure LoopRun where
  ticks : Nat
  sleeps : Nat
  brokeOut : Bool
deriving DecidableEq, Repr

/-- The while-True loop of main over an oracle of tick outcomes: a normal
tick sleeps CHECK_INTERVAL and continues; a caught exception sleeps
CHECK_INTERVAL and continues; KeyboardInterrupt breaks out. The list
bounds how far the run is observed. -/
def main_loop : List TickResult → LoopRun
  | [] => ⟨0, 0, false⟩
  | TickResult.interrupt :: _ => ⟨1, 0, true⟩
  | _ :: rest =>
    let r := main_loop rest
    ⟨r.ticks + 1, r.sleeps + 1, r.brokeOut⟩

/-! ## Connection-lifetime traces

A trace of the events that touch the connected flag and of the send
operations, used to relate sends to the identification handshake on the
current connection. Each event is interpreted by the embedded source
functions where one exists. -/

/-- Events of a connection-lifetime trace: connect_websocket opening a
fresh connection (closing any previous one), the identified frame (op = 2)
arriving, the connection closing, main clearing connected when the process
is gone, and the two request sends. -/
inductive Ev where
  | connect
  | recvIdentified
  | recvClose
  | obsDown
  | reqStatus
  | reqStart
deriving DecidableEq, Repr

/-- Interpretation of one trace event: connect yields a fresh not-yet
identified connection, recvIdentified is on_message at op = 2, recvClose
is on_close, obsDown is main's clearing of connected, and the request
events run the two send functions. Returns the frames sent. -/
def evStep (st : CState) : Ev → CState × List OutMsg
  | Ev.connect => ({ st with connected := false, wsExists := true }, [])
  | Ev.recvIdentified =>
    let (st', sent, _) :=
      on_message "" true st
        { op := 2, authentication := none, requestType := none,
          responseOutputActive := none, eventType := none, eventOutputActive := none }
    (st', sent)
  | Ev.recvClose => (on_close st, [])
  | Ev.obsDown => ({ st with connected := false }, [])
  | Ev.reqStatus =>
    let (st', sent, _) := get_streaming_status st true
    (st', sent.toList)
  | Ev.reqStart =>
    let (st', sent, _, _) := start_streaming st true
    (st', sent.toList)

/-- State after running a trace from the initial globals. -/
def runEvs (evs : List Ev) : CState :=
  evs.foldl (fun st e => (evStep st e).1) initState

/-! ## Helper lemmas -/

/-- UTF-8 encoding distributes over string concatenation, so hashing the
concatenated string equals hashing the concatenated byte encodings. -/
theorem utf8Encode_append (a b : String) :
    utf8Encode (a ++ b) = utf8Encode a ++ utf8Encode b := by
  simp [utf8Encode, String.data_append, List.flatMap_append]

/-- The step-for-step credential of the source equals the spec's wording
of the derivation. -/
theorem authResponseOf_eq_spec (password salt challenge : String) :
    authResponseOf password salt challenge = specAuthResponse password salt challenge := by
  simp [authResponseOf, specAuthResponse, utf8Encode_append]

/-- The hello frame carrying an authentication challenge. -/
def helloAuthFrame (salt challenge : String) : InFrame :=
  { op := 0, authentication := some { salt := salt, challenge := challenge },
    requestType := none, responseOutputActive := none,
    eventType := none, eventOutputActive := none }

/-- C1: for every password, salt and challenge with the password non-empty,
the hello handler answers with exactly one identify frame whose
authentication credential is base64(SHA256(base64(SHA256(utf8 password ++
utf8 salt)) ++ utf8 challenge)), computed on the raw salt and challenge,
deterministically, with the state untouched and the connection kept open. -/
theorem identify_credential_is_two_stage_hash (password salt challenge : String)
    (hp : password ≠ "") (sendOk : Bool) (st : CState) :
    on_message password sendOk st (helloAuthFrame salt challenge) =
      (st, [OutMsg.identify 1 (some (specAuthResponse password salt challenge))], false) := by
  simp [on_message, helloAuthFrame, hp, authResponseOf_eq_spec]

/-- Witness for C1 at the spec's end-to-end scenario password secret,
salt S, challenge C. -/
theorem identify_credential_is_two_stage_hash_witness :
    ("secret" : String) ≠ "" ∧
    on_message "secret" true initState (helloAuthFrame "S" "C") =
      (initState, [OutMsg.identify 1 (some (specAuthResponse "secret" "S" "C"))], false) :=
  ⟨by decide, identify_credential_is_two_stage_hash "secret" "S" "C" (by decide) true initState⟩

/-- C10: a hello frame with an authentication section met by an empty
configured password makes the handler close the connection without sending
anything, in particular no identify frame, and leaves the state unchanged,
so connected can never be set on that connection by this handler. -/
theorem empty_password_closes_without_identify (salt challenge : String)
    (sendOk : Bool) (st : CState) :
    on_message "" sendOk st (helloAuthFrame salt challenge) = (st, [], true) := by
  simp [on_message, helloAuthFrame]

/-- The requestResponse frame for GetStreamStatus reporting an active
output. -/
def statusActiveFrame : InFrame :=
  { op := 7, authentication := none, requestType := some "GetStreamStatus",
    responseOutputActive := some true, eventType := none, eventOutputActive := none }

/-- The StreamStateChanged event frame reporting an inactive output. -/
def streamStoppedFrame : InFrame :=
  { op := 5, authentication := none, requestType := none,
    responseOutputActive := none, eventType := some "StreamStateChanged",
    eventOutputActive := some false }

/-- C5: from any state, the GetStreamStatus response with outputActive
true sets the streaming flag to true; processing the subsequent
StreamStateChanged event with outputActive false sets it back to false;
and the event does so from every state whatsoever, there being no request
correlation in the handler at all. -/
theorem streaming_status_last_writer_wins (password : String) (ok1 ok2 : Bool)
    (st other : CState) :
    (on_message password ok1 st statusActiveFrame).1.streaming_status = true ∧
    (on_message password ok2
      (on_message password ok1 st statusActiveFrame).1
        streamStoppedFrame).1.streaming_status = false ∧
    (on_message password ok2 other streamStoppedFrame).1.streaming_status = false := by
  refine ⟨?_, ?_, ?_⟩ <;> simp [on_message, statusActiveFrame, streamStoppedFrame]

/-! ## Request identifiers across sends -/

/-- A send operation of the watchdog: a GetStreamStatus request or a
StartStream request. -/
inductive SendOp where
  | status
  | start
deriving DecidableEq, Repr

/-- One send call with its ws.send success flag, returning the new state
and the frame actually sent. -/
def sendStep (st : CState) (op : SendOp) (ok : Bool) : CState × Option OutMsg :=
  match op with
  | SendOp.status =>
    let r := get_streaming_status st ok
    (r.1, r.2.1)
  | SendOp.start =>
    let r := start_streaming st ok
    (r.1, r.2.1)

/-- The numeric requestId values of the frames actually sent along a
sequence of send calls: each frame sent carries requestId
toString st.message_id, so the value collected at an emission is exactly
the identifier attached to that frame. -/
def sentIds (st : CState) : List (SendOp × Bool) → List Nat
  | [] => []
  | p :: rest =>
    let s := sendStep st p.1 p.2
    match s.2 with
    | some _ => st.message_id :: sentIds s.1 rest
    | none => sentIds s.1 rest

/-- message_id never decreases across a send call. -/
theorem sendStep_id_le (st : CState) (op : SendOp) (ok : Bool) :
    st.message_id ≤ (sendStep st op ok).1.message_id := by
  cases op <;> simp only [sendStep, get_streaming_status, start_streaming] <;>
    split <;> (try split) <;> simp

/-- When a frame is emitted, message_id advances past the id just used. -/
theorem sendStep_emit_id (st : CState) (op : SendOp) (ok : Bool)
    (h : (sendStep st op ok).2.isSome = true) :
    (sendStep st op ok).1.message_id = st.message_id + 1 := by
  cases op <;> simp only [sendStep, get_streaming_status, start_streaming] at h ⊢ <;>
    split at h <;> (try split at h) <;> simp_all

/-- Every id emitted from state st is at least st.message_id. -/
theorem sentIds_ge (ops : List (SendOp × Bool)) :
    ∀ st, ∀ i ∈ sentIds st ops, st.message_id ≤ i := by
  induction ops with
  | nil => intro st i hi; simp [sentIds] at hi
  | cons p rest ih =>
    intro st i hi
    rcases hemit : (sendStep st p.1 p.2).2 with _ | m
    · rw [sentIds, hemit] at hi
      exact le_trans (sendStep_id_le st p.1 p.2) (ih _ i hi)
    · rw [sentIds, hemit] at hi
      rcases List.mem_cons.mp hi with h1 | h2
      · omega
      · have h3 := ih _ i h2
        have h4 : (sendStep st p.1 p.2).1.message_id = st.message_id + 1 :=
          sendStep_emit_id st p.1 p.2 (by simp [hemit])
        omega

/-- The emitted ids form a strictly increasing chain. -/
theorem sentIds_chain (ops : List (SendOp × Bool)) :
    ∀ st, List.Chain' (· < ·) (sentIds st ops) := by
  induction ops with
  | nil => intro st; simp [sentIds]
  | cons p rest ih =>
    intro st
    rcases hemit : (sendStep st p.1 p.2).2 with _ | m
    · rw [sentIds, hemit]; exact ih _
    · rw [sentIds, hemit]
      refine List.chain'_cons'.mpr ⟨?_, ih _⟩
      intro b hb
      have hmem : b ∈ sentIds (sendStep st p.1 p.2).1 rest :=
        List.mem_of_mem_head? hb
      have h3 := sentIds_ge rest _ b hmem
      have h4 : (sendStep st p.1 p.2).1.message_id = st.message_id + 1 :=
        sendStep_emit_id st p.1 p.2 (by simp [hemit])
      omega

/-- C7: along any sequence of GetStreamStatus and StartStream send calls
from any state, the numeric requestId values attached to the frames
actually sent are strictly increasing between every pair of consecutive
sends, and no value is ever reused. -/
theorem request_ids_strictly_increasing_never_reused (st : CState)
    (ops : List (SendOp × Bool)) :
    List.Chain' (· < ·) (sentIds st ops) ∧ (sentIds st ops).Nodup := by
  have hc := sentIds_chain ops st
  exact ⟨hc, ((List.chain'_iff_pairwise).mp hc).imp (fun h => Nat.ne_of_lt h)⟩

/-! ## Sends only after identification -/

/-- The status send leaves the connected and wsExists flags alone. -/
theorem get_streaming_status_flags (st : CState) (ok : Bool) :
    (get_streaming_status st ok).1.connected = st.connected ∧
    (get_streaming_status st ok).1.wsExists = st.wsExists := by
  simp only [get_streaming_status]
  split <;> (try split) <;> simp

/-- The start send leaves the connected and wsExists flags alone. -/
theorem start_streaming_flags (st : CState) (ok : Bool) :
    (start_streaming st ok).1.connected = st.connected ∧
    (start_streaming st ok).1.wsExists = st.wsExists := by
  simp only [start_streaming]
  split <;> (try split) <;> simp

/-- A request event run from a disconnected state sends nothing, by the
connected guard at the head of both send functions. -/
theorem req_needs_connected (st : CState) (e : Ev)
    (he : e = Ev.reqStatus ∨ e = Ev.reqStart)
    (hc : st.connected = false) :
    (evStep st e).2 = [] := by
  rcases he with h | h <;> subst h <;>
    simp [evStep, get_streaming_status, start_streaming, hc]

/-- Appending one event to a trace steps the final state once. -/
theorem runEvs_append (evs : List Ev) (e : Ev) :
    runEvs (evs ++ [e]) = (evStep (runEvs evs) e).1 := by
  simp [runEvs, List.foldl_append]

/-- Whenever a trace ends connected, it contains an identified frame after
which no connection-resetting event (connect, recvClose, obsDown) occurs. -/
theorem connected_has_identified (evs : List Ev) :
    (runEvs evs).connected = true →
    ∃ pre post, evs = pre ++ Ev.recvIdentified :: post ∧
      ∀ x ∈ post, x ≠ Ev.connect ∧ x ≠ Ev.recvClose ∧ x ≠ Ev.obsDown := by
  induction evs using List.reverseRecOn with
  | nil => intro h; simp [runEvs, initState] at h
  | append_singleton evs e ih =>
    intro h
    rw [runEvs_append] at h
    cases e with
    | connect => simp [evStep] at h
    | recvIdentified => exact ⟨evs, [], rfl, by simp⟩
    | recvClose => simp [evStep, on_close] at h
    | obsDown => simp [evStep] at h
    | reqStatus =>
      have hc : (runEvs evs).connected = true := by
        have := (get_streaming_status_flags (runEvs evs) true).1
        simp only [evStep] at h
        rw [this] at h
        exact h
      obtain ⟨pre, post, heq, hpost⟩ := ih hc
      refine ⟨pre, post ++ [Ev.reqStatus], by rw [heq]; simp, ?_⟩
      intro x hx
      rcases List.mem_append.mp hx with h1 | h2
      · exact hpost x h1
      · simp at h2
        subst h2
        refine ⟨by simp, by simp, by simp⟩
    | reqStart =>
      have hc : (runEvs evs).connected = true := by
        have := (start_streaming_flags (runEvs evs) true).1
        simp only [evStep] at h
        rw [this] at h
        exact h
      obtain ⟨pre, post, heq, hpost⟩ := ih hc
      refine ⟨pre, post ++ [Ev.reqStart], by rw [heq]; simp, ?_⟩
      intro x hx
      rcases List.mem_append.mp hx with h1 | h2
      · exact hpost x h1
      · simp at h2
        subst h2
        refine ⟨by simp, by simp, by simp⟩

/-- C8: if a GetStreamStatus or StartStream request frame is actually sent
after some trace of connection events, then the trace contains a received
identified frame (op = 2) with no later connection-opening or
connection-closing event, i.e. identification completed on the current
connection before the request went out. -/
theorem no_request_sent_before_identified (evs : List Ev) (e : Ev)
    (he : e = Ev.reqStatus ∨ e = Ev.reqStart)
    (hsent : (evStep (runEvs evs) e).2 ≠ []) :
    ∃ pre post, evs = pre ++ Ev.recvIdentified :: post ∧
      ∀ x ∈ post, x ≠ Ev.connect ∧ x ≠ Ev.recvClose ∧ x ≠ Ev.obsDown := by
  have hc : (runEvs evs).connected = true := by
    cases hcb : (runEvs evs).connected with
    | false => exact absurd (req_needs_connected _ e he hcb) hsent
    | true => rfl
  exact connected_has_identified evs hc

/-- Witness for C8: on the trace connect then identified, a status request
does go out, and the theorem locates the identified frame. -/
theorem no_request_sent_before_identified_witness :
    ∃ pre post, [Ev.connect, Ev.recvIdentified] = pre ++ Ev.recvIdentified :: post ∧
      ∀ x ∈ post, x ≠ Ev.connect ∧ x ≠ Ev.recvClose ∧ x ≠ Ev.obsDown :=
  no_request_sent_before_identified [Ev.connect, Ev.recvIdentified] Ev.reqStatus
    (Or.inl rfl) (by decide)

/-! ## Retry depth and exhaustion -/

/-- The nesting depth of connect_websocket activations is bounded by the
fuel, independently of how many attempts the outcome oracle fails. -/
theorem connectLoop_depth_le (outcome : Nat → Bool) (m d : Nat) :
    ∀ fuel k r, (connectLoop outcome m d fuel k r).depth ≤ fuel := by
  intro fuel
  induction fuel with
  | zero => intro k r; simp [connectLoop]
  | succ n ih =>
    intro k r
    simp only [connectLoop]
    split
    · simp
    · split
      · simpa using ih (k + 1) (r + 1)
      · simp

/-- A successful connect_websocket call chain leaves the retry counter
reset to zero: connection_retries = 0 on success. -/
theorem connectLoop_success_resets (outcome : Nat → Bool) (m d : Nat) :
    ∀ fuel k r, (connectLoop outcome m d fuel k r).success = true →
      (connectLoop outcome m d fuel k r).retriesAfter = 0 := by
  intro fuel
  induction fuel with
  | zero => intro k r h; simp [connectLoop] at h
  | succ n ih =>
    intro k r h
    by_cases hk : outcome k = true
    · simp [connectLoop, hk]
    · by_cases hr : r + 1 < m
      · simp [connectLoop, hk, hr] at h ⊢
        exact ih (k + 1) (r + 1) h
      · simp [connectLoop, hk, hr] at h

/-- C2 counterexample: with three consecutive failures and maxRetries 3,
the source's connect_websocket reaches three nested activations of itself
(the recursive retry), not the single activation an iterative loop would
use. -/
theorem connect_websocket_recurses :
    (connect_websocket (fun _ => false) 3 5).depth = 3 := by decide

/-- C2 (amended): although the retry is written as self-recursion, the
attempt counter bounds it: for every outcome oracle, hence for every
number of consecutive failures, the nesting depth of connect_websocket
activations is at most maxRetries + 1, a constant independent of the
failure count. -/
theorem connect_websocket_stack_bounded (outcome : Nat → Bool)
    (maxRetries retryDelay : Nat) :
    (connect_websocket outcome maxRetries retryDelay).depth ≤ maxRetries + 1 :=
  connectLoop_depth_le outcome maxRetries retryDelay (maxRetries + 1) 0 0

/-- C6: with maxRetries 3 and every attempt failing, connect_websocket
performs exactly the trace attempt 0, sleep, attempt 1, sleep, attempt 2 —
three attempts with the configured delay between consecutive attempts and
none after the last — returns failure with the counter reset; and in
general any successful call chain resets the retry counter to zero. -/
theorem three_failures_exhaust_retries (d : Nat) (outcome : Nat → Bool)
    (hf : ∀ k, outcome k = false) :
    (connect_websocket outcome 3 d).events =
      [ConnEv.attempt 0, ConnEv.sleep d, ConnEv.attempt 1, ConnEv.sleep d,
       ConnEv.attempt 2] ∧
    (connect_websocket outcome 3 d).success = false ∧
    (connect_websocket outcome 3 d).retriesAfter = 0 ∧
    ∀ (o : Nat → Bool) (m dd fuel k r : Nat),
      (connectLoop o m dd fuel k r).success = true →
      (connectLoop o m dd fuel k r).retriesAfter = 0 := by
  refine ⟨?_, ?_, ?_, fun o m dd fuel k r h => connectLoop_success_resets o m dd fuel k r h⟩ <;>
    simp [connect_websocket, connectLoop, hf]

/-- Witness for C6 at the all-failures oracle and delay 5. -/
theorem three_failures_exhaust_retries_witness :
    (∀ k : Nat, (fun _ : Nat => false) k = false) ∧
    (connect_websocket (fun _ : Nat => false) 3 5).events =
      [ConnEv.attempt 0, ConnEv.sleep 5, ConnEv.attempt 1, ConnEv.sleep 5,
       ConnEv.attempt 2] :=
  ⟨fun _ => rfl,
    (three_failures_exhaust_retries 5 (fun _ => false) (fun _ => rfl)).1⟩

/-! ## Supervision-tick behaviour -/

/-- A tick environment in which OBS runs and the StartStream send raises. -/
def envStartSendFails : TickEnv :=
  { obs_running := true, connect_success := true, status_send_ok := true,
    status_response := none, start_send_ok := false }

/-- A tick environment in which OBS runs and every send succeeds. -/
def envAllSendsOk : TickEnv :=
  { obs_running := true, connect_success := true, status_send_ok := true,
    status_response := none, start_send_ok := true }

/-- A tick environment in which the liveness probe reports OBS gone. -/
def envObsDown : TickEnv :=
  { obs_running := false, connect_success := false, status_send_ok := true,
    status_response := none, start_send_ok := true }

/-- A connected idle session: identified, not streaming. -/
def stConnectedIdle : CState :=
  { connected := true, streaming_status := false, message_id := 1, wsExists := true }

/-- A connected session with the streaming flag set. -/
def stConnectedStreaming : CState :=
  { connected := true, streaming_status := true, message_id := 4, wsExists := true }

/-- C3 counterexample: with fallback disabled, a tick with a connected
session, inactive streaming status and a failing StartStream send still
invokes the keyboard-shortcut fallback actuator, because start_streaming
falls back on send failure without consulting USE_FALLBACK_ON_FAILURE. -/
theorem keyboard_fallback_despite_disabled_flag :
    (tick false envStartSendFails stConnectedIdle).2.keyboard = true := by decide

/-- C3 (amended): the tick-level fallback branch for an unusable session is
gated on USE_FALLBACK_ON_FAILURE, but start_streaming additionally invokes
the keyboard actuator itself when the session vanished or the send raises;
with the flag disabled no tick invokes the keyboard actuator provided the
StartStream send does not fail and a connected session has its ws object. -/
theorem fallback_disabled_no_keyboard (useFallback : Bool) (env : TickEnv)
    (st : CState) (hfb : useFallback = false) (hsend : env.start_send_ok = true)
    (hws : st.connected = true → st.wsExists = true) :
    (tick useFallback env st).2.keyboard = false := by
  obtain ⟨orun, csucc, ssok, sresp, stok⟩ := env
  obtain ⟨conn, strm, mid, wse⟩ := st
  subst hfb
  simp only at hsend hws
  subst hsend
  cases orun <;> cases conn <;> cases csucc <;> cases wse <;> cases strm <;>
    cases ssok <;> rcases sresp with _ | b <;> (try cases b) <;>
    simp_all [tick, get_streaming_status, start_streaming]

/-- Witness for C3 (amended) on a tick that sends StartStream successfully
with the fallback flag disabled. -/
theorem fallback_disabled_no_keyboard_witness :
    (false = false) ∧ envAllSendsOk.start_send_ok = true ∧
    (stConnectedIdle.connected = true → stConnectedIdle.wsExists = true) ∧
    (tick false envAllSendsOk stConnectedIdle).2.keyboard = false :=
  ⟨rfl, rfl, fun _ => rfl,
    fallback_disabled_no_keyboard false envAllSendsOk stConnectedIdle rfl rfl
      (fun _ => rfl)⟩

/-- C4 counterexample: on a tick where the liveness probe reports OBS not
running and a connected session exists with the streaming flag set, the
flag survives the tick: the code clears connected and closes ws but never
resets streaming_status. -/
theorem obs_down_does_not_clear_streaming :
    (tick true envObsDown stConnectedStreaming).1.streaming_status = true := by decide

/-- C4 (amended): on a tick where the liveness probe reports OBS not
running, the tick clears the connected flag (closing the session when one
existed) but leaves the streaming-active flag exactly as it was; nothing
clears StreamingState. -/
theorem obs_down_closes_session_keeps_flag (useFallback : Bool) (env : TickEnv)
    (st : CState) (h : env.obs_running = false) :
    (tick useFallback env st).1.connected = false ∧
    (tick useFallback env st).1.streaming_status = st.streaming_status := by
  cases hc : st.connected <;> simp [tick, h, hc]

/-- Witness for C4 (amended) at a concrete down-tick. -/
theorem obs_down_closes_session_keeps_flag_witness :
    envObsDown.obs_running = false ∧
    (tick true envObsDown stConnectedStreaming).1.connected = false :=
  ⟨rfl, (obs_down_closes_session_keeps_flag true envObsDown stConnectedStreaming rfl).1⟩

/-! ## Main-loop exception handling -/

/-- C9: a run of main's while-True loop in which no tick raises
KeyboardInterrupt executes every tick, sleeps the check interval after
each one, including after every caught exception, and never leaves the
loop: a tick failure is never fatal to the process. -/
theorem tick_errors_never_fatal (rs : List TickResult)
    (h : TickResult.interrupt ∉ rs) :
    main_loop rs = ⟨rs.length, rs.length, false⟩ := by
  induction rs with
  | nil => simp [main_loop]
  | cons r rest ih =>
    have ht : TickResult.interrupt ∉ rest := fun he => h (List.mem_cons_of_mem r he)
    cases r with
    | interrupt => exact absurd (List.mem_cons_self _ _) h
    | ok => simp [main_loop, ih ht]
    | err => simp [main_loop, ih ht]

/-- Witness for C9: two caught exceptions among three ticks, all executed,
no exit. -/
theorem tick_errors_never_fatal_witness :
    (TickResult.interrupt ∉ [TickResult.ok, TickResult.err, TickResult.err]) ∧
    main_loop [TickResult.ok, TickResult.err, TickResult.err] = ⟨3, 3, false⟩ :=
  ⟨by decide,
    tick_errors_never_fatal [TickResult.ok, TickResult.err, TickResult.err] (by decide)⟩
